import Mathlib

/-!
Verification development for the `python-server-cantrips` messaging core.

Shallow embedding of:
  * `cantrips/protocol/messaging/formats.py` (command splitting/joining,
    `Formats`, `CommandSpec`, `Translator.parse_data` / `Translator.serialize`),
  * `cantrips/protocol/messaging/layers.py` (`ProtocolLayer.process_message`),
  * `cantrips/protocol/messaging/processor.py` (`MessageProcessor._conn_message`
    layer loop, `send_message`, strict-mode close routing),
  * `cantrips/protocol/messaging/messages.py` (`MessageNamespaceSet`),
  * `cantrips/task/timed.py` (`Timeout`).

Python integers are modelled as `Nat` (all values reached by the modelled code
paths are non-negative); Python `dict`s are modelled as association lists or as
functions into `Option`; raising is modelled with `Except`.
-/

namespace Cantrips

/-! ### formats.py: integer command splitting / joining -/

/-- `_32bits = (1 << 32) - 1` (formats.py line 8). -/
def mask32 : Nat := (1 <<< 32) - 1

/-- `_split_integer_command` (formats.py lines 70-74):
`return (command >> 32) & _32bits, command & _32bits`. -/
def split_integer_command (command : Nat) : Nat × Nat :=
  ((command >>> 32) &&& mask32, command &&& mask32)

/-- `_join_integer_command` (formats.py lines 84-88):
`return ((ns & _32bits) << 32) | code & _32bits`. -/
def join_integer_command (ns code : Nat) : Nat :=
  ((ns &&& mask32) <<< 32) ||| (code &&& mask32)

/-- `_join_string_command` (formats.py lines 77-81): `"%s.%s" % (ns, code)`. -/
def join_string_command (ns code : String) : String :=
  ns ++ "." ++ code

theorem mask32_eq : mask32 = 2 ^ 32 - 1 := by
  simp [mask32, Nat.shiftLeft_eq]

theorem and_mask32_eq_mod (x : Nat) : x &&& mask32 = x % 2 ^ 32 := by
  rw [mask32_eq, Nat.and_pow_two_sub_one_eq_mod]

/-- Claim C8: for all integers `ns` and `code` in `[0, 2^32)`, splitting the
64-bit value obtained by joining them in the compact encoding (namespace in
the high 32 bits, code in the low 32 bits) returns exactly `(ns, code)`. -/
theorem split_join_integer_command (ns code : Nat)
    (hns : ns < 2 ^ 32) (hcode : code < 2 ^ 32) :
    split_integer_command (join_integer_command ns code) = (ns, code) := by
  have hmod_ns : ns % 2 ^ 32 = ns := Nat.mod_eq_of_lt hns
  have hmod_code : code % 2 ^ 32 = code := Nat.mod_eq_of_lt hcode
  have hjoin : join_integer_command ns code = 2 ^ 32 * ns + code := by
    rw [join_integer_command, and_mask32_eq_mod, and_mask32_eq_mod,
      hmod_ns, hmod_code, Nat.shiftLeft_eq, Nat.mul_comm ns,
      ← Nat.mul_add_lt_is_or hcode]
  have hdiv : (2 ^ 32 * ns + code) / 2 ^ 32 = ns := by
    rw [Nat.mul_add_div (by norm_num : 0 < 2 ^ 32), Nat.div_eq_of_lt hcode,
      Nat.add_zero]
  have hmod : (2 ^ 32 * ns + code) % 2 ^ 32 = code := by
    rw [Nat.mul_add_mod, hmod_code]
  rw [split_integer_command, hjoin, Nat.shiftRight_eq_div_pow,
    and_mask32_eq_mod, and_mask32_eq_mod, hdiv, hmod_ns, hmod]

/-- Witness for C8 at `ns = 3`, `code = 5`. -/
theorem split_join_integer_command_witness :
    split_integer_command (join_integer_command 3 5) = (3, 5) :=
  split_join_integer_command 3 5 (by norm_num) (by norm_num)

/-! ### Wire values, command specs, messages -/

/-- A decoded wire-level value (result of `json.loads` / `msgpack.loads`).
The byte-level codec itself is out of scope (spec section 1): raw inbound data
is modelled as the value it decodes to. -/
inductive WireValue where
  | int (n : Nat)
  | str (s : String)
  | list (xs : List WireValue)
  | map (kvs : List (String × WireValue))

/-- Keys of a decoded map value (empty for non-maps). -/
def WireValue.mapKeys : WireValue → List String
  | .map kvs => kvs.map Prod.fst
  | _ => []

/-- `CommandSpec` (formats.py lines 141-151): a namedtuple with fields
`('string', 'integer')`; `Formats.spec_value` selects field 0 (`string`) for
`FORMAT_STRING` and field 1 (`integer`) for `FORMAT_INTEGER`.  We give the
fields their intended types.  Note that the source builds
`ANY_COMMAND = CommandSpec(0xFFFFFFFF, '__any__')` positionally, so its two
literal fields are transposed relative to the field names; this is
unobservable in the modelled operations because `ANY_COMMAND` is only ever
compared for identity/equality and is rejected by every registration path. -/
structure CommandSpec where
  string : String
  integer : Nat
deriving DecidableEq

/-- `ANY_COMMAND` (formats.py line 152). -/
def ANY_COMMAND : CommandSpec := ⟨"__any__", 0xFFFFFFFF⟩

/-- The message envelope as the modelled code paths access it:
`message.code[0]` / `message.code[1]` are the namespace and code specs
(layers.py lines 137-139, formats.py line 293), `args` / `kwargs` are the
payload (formats.py lines 294-295), and `direction` is the
client/server-bound flag (messages.py lines 50-56). -/
structure Message where
  code : CommandSpec × CommandSpec
  args : List WireValue
  kwargs : List (String × WireValue)
  direction : Nat

/-- `MessageFactory.DIRECTION_CLIENT` (messages.py line 87). -/
def MessageFactory.DIRECTION_CLIENT : Nat := 1

/-- `MessageFactory.DIRECTION_SERVER` (messages.py line 88). -/
def MessageFactory.DIRECTION_SERVER : Nat := 2

/-- `MessageFactory.DIRECTION_BOTH` (messages.py line 89). -/
def MessageFactory.DIRECTION_BOTH : Nat := 3

/-! ### Translator (formats.py) -/

/-- `Formats` (formats.py lines 98-105): 0 = string/JSON, 1 = integer/msgpack. -/
inductive Formats where
  | FORMAT_STRING
  | FORMAT_INTEGER
deriving DecidableEq

/-- `Translator.Error` codes (formats.py lines 187-196). -/
inductive TranslatorErrorKind where
  | UNEXPECTED_BINARY
  | UNEXPECTED_TEXT
  | EXPECTED_MAP
  | EXPECTED_MAP_WITH_CODE
  | EXPECTED_ARGS_AS_LIST
  | EXPECTED_KWARGS_AS_DICT
  | EXPECTED_KWARGS_KEYS_AS_STRING
  | UNKNOWN_COMMAND
deriving DecidableEq

/-- Python exceptions reached by the modelled code paths. -/
inductive PyError where
  | translatorError (k : TranslatorErrorKind)
  | typeError
  | attributeError
deriving DecidableEq

/-- The framing check opening `Translator.parse_data` (formats.py lines
252-258), transcribed exactly:

    if binary is not None:
        if binary and self.format == Formats.FORMAT_STRING:
            raise ... UNEXPECTED_BINARY
        if not binary and self.format == Formats.FORMAT_STRING:
            raise ... UNEXPECTED_TEXT

Both branches test `FORMAT_STRING`, although the second branch's error text
speaks of a msgpack-format translator. -/
def Translator.framingCheck (fmt : Formats) (binary : Option Bool) :
    Option TranslatorErrorKind :=
  match binary with
  | none => none
  | some b =>
    if b && (fmt == Formats.FORMAT_STRING) then some .UNEXPECTED_BINARY
    else if !b && (fmt == Formats.FORMAT_STRING) then some .UNEXPECTED_TEXT
    else none

/-- `Translator.parse_data` (formats.py lines 235-282).  After the framing
check and the decode (`self.format.broker.loads(data)`, modelled as the
already-decoded `WireValue`), the source tests `isinstance(data, dict)` and
then executes

    if 'code' not in dict:

(line 265).  `dict` here is the Python *builtin type*, not the local variable
`data`; membership testing on a type raises
`TypeError: argument of type 'type' is not iterable`, unconditionally, so
every map input raises TypeError and lines 266-282 (including the
`UNKNOWN_COMMAND` translation check and `Message` construction) are
unreachable dead code, which is therefore not modelled. -/
def Translator.parse_data (fmt : Formats) (data : WireValue)
    (binary : Option Bool) : Except PyError Message :=
  match Translator.framingCheck fmt binary with
  | some k => .error (.translatorError k)
  | none =>
    match data with
    | .map _ => .error .typeError
    | _ => .error (.translatorError .EXPECTED_MAP)

/-- `Translator.untranslate` (formats.py lines 226-233):
`self.format.join(self.format.spec_value(namespace), self.format.spec_value(code))`,
with `spec_value` selecting the string field for `FORMAT_STRING` and the
integer field for `FORMAT_INTEGER`. -/
def Translator.untranslate (fmt : Formats) (ns code : CommandSpec) : WireValue :=
  match fmt with
  | .FORMAT_STRING => .str (join_string_command ns.string code.string)
  | .FORMAT_INTEGER => .int (join_integer_command ns.integer code.integer)

/-- `Translator.serialize` (formats.py lines 284-296): the dict handed to
`self.format.broker.dumps` is built inline with all three keys, with no
direction check and no omission of empty `args`/`kwargs`. -/
def Translator.serialize (fmt : Formats) (message : Message) : WireValue :=
  .map [("code", Translator.untranslate fmt message.code.1 message.code.2),
        ("args", .list message.args),
        ("kwargs", .map message.kwargs)]

/-- Claim C6 (code bug): the source's framing check tests `FORMAT_STRING` in
*both* branches (formats.py line 256 contradicts its own error message, which
speaks of a MSGPACK-format translator), so a text-required request on the
text/JSON translator is rejected with UNEXPECTED_TEXT, while a text-required
request on the binary/msgpack translator passes the framing check — the exact
opposite of the claim for those two cases.  Binary-required on the JSON
translator is rejected as the claim states. -/
theorem framingCheck_wrong_format_tested :
    Translator.framingCheck .FORMAT_STRING (some false)
        = some TranslatorErrorKind.UNEXPECTED_TEXT ∧
    Translator.framingCheck .FORMAT_INTEGER (some false) = none ∧
    Translator.framingCheck .FORMAT_STRING (some true)
        = some TranslatorErrorKind.UNEXPECTED_BINARY ∧
    Translator.framingCheck .FORMAT_INTEGER (some true) = none ∧
    Translator.framingCheck .FORMAT_STRING none = none := by
  refine ⟨rfl, rfl, rfl, rfl, rfl⟩

/-- A server-bound-only message (direction `DIRECTION_SERVER`) with empty
positional and named arguments, used as concrete input below. -/
def say_message : Message :=
  { code := (⟨"chat", 1⟩, ⟨"say", 2⟩)
    args := []
    kwargs := []
    direction := MessageFactory.DIRECTION_SERVER }

/-- `MessageProcessor.send_message` (processor.py lines 142-149):
`return self._conn_send(self._trans_serialize(message),
self.TRANSLATOR.format == Formats.FORMAT_INTEGER)`.  The serialized bytes are
always handed to `_conn_send`; no code path inspects `message.direction`. -/
inductive SendOutcome where
  | sent (data : WireValue) (binary : Bool)
  | rejected (e : PyError)

def MessageProcessor.send_message (fmt : Formats) (message : Message) :
    SendOutcome :=
  .sent (Translator.serialize fmt message) (fmt == Formats.FORMAT_INTEGER)

/-- Claim C4 (code bug): `send_message` hands the serialized bytes of a
message whose direction excludes the client-bound capability straight to
`_conn_send`; neither `send_message` nor `Translator.serialize` checks
`message.direction`, so nothing is rejected. -/
theorem send_message_ignores_direction :
    say_message.direction &&& MessageFactory.DIRECTION_CLIENT = 0 ∧
    MessageProcessor.send_message .FORMAT_STRING say_message
      = SendOutcome.sent
          (WireValue.map [("code", WireValue.str "chat.say"),
            ("args", WireValue.list []), ("kwargs", WireValue.map [])])
          false :=
  ⟨by decide, rfl⟩

/-- Counterexample to claim C7 at a concrete input: serializing a message
with empty `args` and empty `kwargs` does *not* produce a map containing only
the `code` key. -/
theorem serialize_empty_only_code_counterexample :
    ¬ (Translator.serialize .FORMAT_STRING say_message).mapKeys = ["code"] := by
  decide

/-- Claim C7 as amended: serializing a message with an empty
positional-argument sequence and an empty named-argument mapping produces the
encoding of a map with exactly the keys `code`, `args` and `kwargs`, the
latter two bound to the empty list and the empty map (the source includes
them rather than omitting them). -/
theorem serialize_empty_args_kwargs (fmt : Formats) (m : Message)
    (hargs : m.args = []) (hkwargs : m.kwargs = []) :
    Translator.serialize fmt m
      = WireValue.map
          [("code", Translator.untranslate fmt m.code.1 m.code.2),
           ("args", WireValue.list []), ("kwargs", WireValue.map [])] := by
  simp [Translator.serialize, hargs, hkwargs]

/-- Witness for the amended C7 at a concrete message. -/
theorem serialize_empty_args_kwargs_witness :
    Translator.serialize .FORMAT_STRING say_message
      = WireValue.map
          [("code", Translator.untranslate Formats.FORMAT_STRING
              say_message.code.1 say_message.code.2),
           ("args", WireValue.list []), ("kwargs", WireValue.map [])] :=
  serialize_empty_args_kwargs Formats.FORMAT_STRING say_message rfl rfl

/-! ### Protocol layers (layers.py) -/

/-- The control signal a layer handler's run produces, per the exceptions of
layers.py (`ICannotHandle` lines 52-56, `NobodyCanHandle` lines 58-62),
`MessageProcessor.CloseConnection` (processor.py lines 64-70), or any other
exception escaping the handler. -/
inductive LayerSignal where
  | handled
  | iCannotHandle
  | nobodyCanHandle
  | closeConnection
  | raises (e : PyError)
deriving DecidableEq

/-- The handler table `self.__handlers`, a Python dict keyed by
`(namespace, command)` spec pairs (layers.py line 123), modelled as a partial
map.  A registered handler is represented by the `LayerSignal` its run on the
message at hand produces. -/
def HandlerTable : Type := CommandSpec × CommandSpec → Option LayerSignal

/-- The handler-selection chain of `ProtocolLayer.process_message`
(layers.py lines 134-140):

    handler = (_get(message.code[0], message.code[1]) or
               _get(message.code[0], ANY_COMMAND) or
               _get(ANY_COMMAND, ANY_COMMAND) or
               (lambda socket, message: self.i_cannot_handle()))

The registered handlers are callables, hence truthy, so `or` selects the
first present entry. -/
def ProtocolLayer.selectHandler (handlers : HandlerTable)
    (ns code : CommandSpec) : Option LayerSignal :=
  match handlers (ns, code) with
  | some h => some h
  | none =>
    match handlers (ns, ANY_COMMAND) with
    | some h => some h
    | none => handlers (ANY_COMMAND, ANY_COMMAND)

/-- `ProtocolLayer.process_message` (layers.py lines 125-142): run the
selected handler; when no entry matches, the default
`lambda socket, message: self.i_cannot_handle()` raises `ICannotHandle`. -/
def ProtocolLayer.process_message (handlers : HandlerTable)
    (message : Message) : LayerSignal :=
  (ProtocolLayer.selectHandler handlers message.code.1 message.code.2).getD
    .iCannotHandle

/-- Claim C3: `process_message` dispatches to the handler registered under
exactly `(ns, code)` if present, otherwise `(ns, ANY)` if present, otherwise
`(ANY, ANY)` if present, and when none of the three is registered it behaves
as if the handler had signalled "I cannot handle this". -/
theorem process_message_precedence (handlers : HandlerTable) (m : Message) :
    (∀ h, handlers (m.code.1, m.code.2) = some h →
      ProtocolLayer.process_message handlers m = h) ∧
    (handlers (m.code.1, m.code.2) = none →
      ∀ h, handlers (m.code.1, ANY_COMMAND) = some h →
        ProtocolLayer.process_message handlers m = h) ∧
    (handlers (m.code.1, m.code.2) = none →
      handlers (m.code.1, ANY_COMMAND) = none →
      ∀ h, handlers (ANY_COMMAND, ANY_COMMAND) = some h →
        ProtocolLayer.process_message handlers m = h) ∧
    (handlers (m.code.1, m.code.2) = none →
      handlers (m.code.1, ANY_COMMAND) = none →
      handlers (ANY_COMMAND, ANY_COMMAND) = none →
        ProtocolLayer.process_message handlers m = .iCannotHandle) := by
  refine ⟨?_, ?_, ?_, ?_⟩
  · intro h hx
    simp [ProtocolLayer.process_message, ProtocolLayer.selectHandler, hx]
  · intro hx h hns
    simp [ProtocolLayer.process_message, ProtocolLayer.selectHandler, hx, hns]
  · intro hx hns h hany
    simp [ProtocolLayer.process_message, ProtocolLayer.selectHandler, hx, hns,
      hany]
  · intro hx hns hany
    simp [ProtocolLayer.process_message, ProtocolLayer.selectHandler, hx, hns,
      hany]

/-- A concrete handler table registering only the exact pair of
`say_message`. -/
def sayOnlyTable : HandlerTable := fun k =>
  if k = (⟨"chat", 1⟩, ⟨"say", 2⟩) then some .handled else none

/-- Witness for C3: the exact entry wins on the concrete table. -/
theorem process_message_precedence_witness :
    ProtocolLayer.process_message sayOnlyTable say_message = .handled :=
  (process_message_precedence sayOnlyTable say_message).1 .handled (by decide)

/-! ### Message processor (processor.py) -/

/-- Outcome of the layer loop of `MessageProcessor._conn_message`
(processor.py lines 207-220): a normal handler return exits the loop
(`return`), `ICannotHandle` continues to the next layer, `NobodyCanHandle`
breaks out, all layers exhausted falls through, and a `CloseConnection` or
any other exception unwinds out of the loop into the surrounding `except`
clauses. -/
inductive LoopOutcome where
  | handled
  | allDeclined
  | forbidden
  | closeSignal
  | exc (e : PyError)
deriving DecidableEq

/-- The `for layer in self.LAYERS` loop (processor.py lines 207-220), over
the signal each layer's `process_message` produces for the message at
hand. -/
def MessageProcessor.runLayers : List LayerSignal → LoopOutcome
  | [] => .allDeclined
  | sig :: rest =>
    match sig with
    | .handled => .handled
    | .iCannotHandle => MessageProcessor.runLayers rest
    | .nobodyCanHandle => .forbidden
    | .closeConnection => .closeSignal
    | .raises e => .exc e

/-- Number of layers whose `process_message` is invoked by the loop: the
leading run of layers signalling `ICannotHandle`, plus the one layer (if any)
at which the loop stops.  Layer `i` (0-based registration order) is invoked
iff `i < invokedLayers sigs`. -/
def MessageProcessor.invokedLayers : List LayerSignal → Nat
  | [] => 0
  | sig :: rest =>
    match sig with
    | .iCannotHandle => MessageProcessor.invokedLayers rest + 1
    | _ => 1

/-- Observable outcome of `MessageProcessor._conn_message`
(processor.py lines 193-228). -/
inductive ConnOutcome where
  | handledByLayer
  | forcefulClose (code : Nat) (reason : String)
  | hookUnknownMessage
  | terminated
  | uncaught (e : PyError)
deriving DecidableEq

/-- `MessageProcessor._unknown_message` (processor.py lines 261-272) together
with `_close_protocol_violation` (lines 130-133): strict mode forcefully
closes with code 1002, lenient mode invokes the user's on-unknown-message
hook. -/
def MessageProcessor.unknown_message (strict : Bool) : ConnOutcome :=
  if strict then .forcefulClose 1002 "Unexistent or unavailable message"
  else .hookUnknownMessage

/-- The dispatch stage of `_conn_message` after a successful parse
(processor.py lines 207-228): loop over the layers, then route the loop
outcome.  `CloseConnection` is caught and calls `terminate()` (line 223-224).
Any other exception escaping a handler reaches
`except self._serializer_exceptions() as error:` (line 225); evaluating that
clause raises AttributeError, because `_serializer_exceptions` is not defined
anywhere on processor.py's `MessageProcessor` class (it exists only on the
unrelated legacy class in `messaging/__init__.py`), and that AttributeError
propagates out of `_conn_message` — the later `except Exception` clause is
never consulted for it. -/
def MessageProcessor.dispatch (strict : Bool) (sigs : List LayerSignal) :
    ConnOutcome :=
  match MessageProcessor.runLayers sigs with
  | .handled => .handledByLayer
  | .allDeclined => MessageProcessor.unknown_message strict
  | .forbidden => MessageProcessor.unknown_message strict
  | .closeSignal => .terminated
  | .exc _ => .uncaught .attributeError

/-- `MessageProcessor._conn_message` (processor.py lines 193-228): parse,
then dispatch over the layers.  A parse failure (and `Translator.parse_data`
always fails, see `Translator.parse_data`) is an exception that is not
`CloseConnection`, so it reaches the `except self._serializer_exceptions()`
clause, whose evaluation raises an uncaught AttributeError. -/
def MessageProcessor.conn_message (strict : Bool) (fmt : Formats)
    (layers : Message → List LayerSignal) (data : WireValue)
    (binary : Option Bool) : ConnOutcome :=
  match Translator.parse_data fmt data binary with
  | .error _ => .uncaught .attributeError
  | .ok message => MessageProcessor.dispatch strict (layers message)

theorem invokedLayers_pos (sigs : List LayerSignal) (h : sigs ≠ []) :
    0 < MessageProcessor.invokedLayers sigs := by
  match sigs with
  | [] => exact absurd rfl h
  | sig :: rest => cases sig <;> simp [MessageProcessor.invokedLayers]

/-- Skipping a leading run of declining layers: the loop outcome and the
count of invoked layers decompose over `List.drop`. -/
theorem runLayers_invoked_drop (i : Nat) :
    ∀ sigs : List LayerSignal, (hi : i ≤ sigs.length) →
    (∀ j, (hj : j < i) → sigs.get ⟨j, lt_of_lt_of_le hj hi⟩ = .iCannotHandle) →
    MessageProcessor.runLayers sigs
        = MessageProcessor.runLayers (sigs.drop i) ∧
    MessageProcessor.invokedLayers sigs
        = i + MessageProcessor.invokedLayers (sigs.drop i) := by
  induction i with
  | zero => intro sigs hi hdec; simp
  | succ i ih =>
    intro sigs hi hdec
    match sigs with
    | [] => exact absurd hi (by simp)
    | sig :: rest =>
      have h0 : sig = .iCannotHandle := hdec 0 (Nat.succ_pos i)
      subst h0
      have hile : i ≤ rest.length := by
        simpa [Nat.succ_le_succ_iff] using hi
      have hdec' : ∀ j, (hj : j < i) →
          rest.get ⟨j, lt_of_lt_of_le hj hile⟩ = .iCannotHandle := by
        intro j hj
        have := hdec (j + 1) (Nat.succ_lt_succ hj)
        simpa [List.get_cons_succ] using this
      obtain ⟨hrun, hinv⟩ := ih rest hile hdec'
      refine ⟨?_, ?_⟩
      · simpa [MessageProcessor.runLayers, List.drop] using hrun
      · simp only [MessageProcessor.invokedLayers, List.drop]
        omega

/-- Claim C1: with the message already parsed, the processor consults the
layers in registration order; a layer signalling "I cannot handle this"
passes the message to the next layer, "nobody can handle this" stops the
iteration (no later layer is invoked) and fires the unknown-message policy,
a normal handler return stops the iteration without the policy, and if every
layer declines the unknown-message policy fires. -/
theorem conn_message_layer_chain (sigs : List LayerSignal) (strict : Bool)
    (i : Nat) (hi : i < sigs.length)
    (hdec : ∀ j, (hj : j < i) →
      sigs.get ⟨j, lt_trans hj hi⟩ = .iCannotHandle) :
    (i < MessageProcessor.invokedLayers sigs) ∧
    (sigs.get ⟨i, hi⟩ = .nobodyCanHandle →
      MessageProcessor.invokedLayers sigs = i + 1 ∧
      MessageProcessor.dispatch strict sigs
        = MessageProcessor.unknown_message strict) ∧
    (sigs.get ⟨i, hi⟩ = .handled →
      MessageProcessor.invokedLayers sigs = i + 1 ∧
      MessageProcessor.dispatch strict sigs = ConnOutcome.handledByLayer) ∧
    ((∀ j, (hj : j < sigs.length) → sigs.get ⟨j, hj⟩ = .iCannotHandle) →
      MessageProcessor.dispatch strict sigs
        = MessageProcessor.unknown_message strict) := by
  have hile : i ≤ sigs.length := Nat.le_of_lt hi
  obtain ⟨hrun, hinv⟩ := runLayers_invoked_drop i sigs hile
    (by intro j hj; exact hdec j hj)
  have hdrop : sigs.drop i = sigs.get ⟨i, hi⟩ :: sigs.drop (i + 1) :=
    List.drop_eq_get_cons hi
  refine ⟨?_, ?_, ?_, ?_⟩
  · have hne : sigs.drop i ≠ [] := by
      intro hcontra
      have hlen := congrArg List.length hcontra
      simp at hlen
      omega
    have := invokedLayers_pos _ hne
    omega
  · intro hget
    rw [hdrop, hget] at hrun hinv
    constructor
    · simp only [MessageProcessor.invokedLayers] at hinv
      omega
    · simp [MessageProcessor.dispatch, hrun, MessageProcessor.runLayers]
  · intro hget
    rw [hdrop, hget] at hrun hinv
    constructor
    · simp only [MessageProcessor.invokedLayers] at hinv
      omega
    · simp [MessageProcessor.dispatch, hrun, MessageProcessor.runLayers]
  · intro hall
    obtain ⟨hrunall, _⟩ := runLayers_invoked_drop sigs.length sigs
      (Nat.le_refl _) (by intro j hj; exact hall j hj)
    rw [List.drop_length] at hrunall
    simp [MessageProcessor.dispatch, hrunall, MessageProcessor.runLayers]

/-- Witness for C1: two layers, the first declining, the second forbidding
further handling — exactly the two layers are invoked and the
unknown-message policy fires. -/
theorem conn_message_layer_chain_witness :
    MessageProcessor.invokedLayers
        [LayerSignal.iCannotHandle, LayerSignal.nobodyCanHandle] = 2 ∧
    MessageProcessor.dispatch true
        [LayerSignal.iCannotHandle, LayerSignal.nobodyCanHandle]
      = MessageProcessor.unknown_message true :=
  (conn_message_layer_chain
    [LayerSignal.iCannotHandle, LayerSignal.nobodyCanHandle] true 1
    (by decide)
    (fun j hj => by
      match j, hj with
      | 0, _ => rfl)).2.1 rfl

/-- Claim C2 (code bug): in strict mode, neither the unregistered-command
close (1002) nor the malformed-envelope close (1003) can occur.  Every map
payload — with or without a `code` key — makes `parse_data` raise TypeError
at `if 'code' not in dict:` (formats.py line 265 tests the builtin type
`dict`, not the variable `data`), and `_conn_message`'s
`except self._serializer_exceptions()` clause itself raises AttributeError
because that method does not exist on this class, so the exception escapes
and no forceful close is performed at all. -/
theorem conn_message_strict_never_closes :
    (MessageProcessor.conn_message true .FORMAT_STRING (fun _ => [])
        (WireValue.map [("code", WireValue.str "chat.say")]) none
      = ConnOutcome.uncaught PyError.attributeError) ∧
    (MessageProcessor.conn_message true .FORMAT_STRING (fun _ => [])
        (WireValue.map [("args", WireValue.list [])]) none
      = ConnOutcome.uncaught PyError.attributeError) ∧
    (∀ code reason,
      MessageProcessor.conn_message true .FORMAT_STRING (fun _ => [])
          (WireValue.map [("code", WireValue.str "chat.say")]) none
        ≠ ConnOutcome.forcefulClose code reason) := by
  refine ⟨rfl, rfl, ?_⟩
  intro code reason h
  exact ConnOutcome.noConfusion h

/-! ### Timeout (task/timed.py) -/

/-- `Timeout.Error` codes (timed.py line 14). -/
inductive TimeoutErrorKind where
  | ALREADY_RUNNING
  | STILL_RUNNING
  | NOT_RUNNING
  | COULDNT_RUN
deriving DecidableEq

/-- The Python value passed as `seconds` to `Timeout.__init__`: an int, a
float, or anything else (`isinstance(seconds, integer_types + (float,))`
fails only in the last case). -/
inductive PySeconds where
  | int (n : Int)
  | float (q : ℚ)
  | nonNumeric
deriving DecidableEq

/-- Whether `isinstance(seconds, integer_types + (float,))` holds. -/
def PySeconds.isNumeric : PySeconds → Bool
  | .int _ => true
  | .float _ => true
  | .nonNumeric => false

/-- The Python value passed as `on_reach`: callable or not
(`callable(on_reach)`). -/
inductive PyCallback where
  | callable
  | notCallable
deriving DecidableEq

/-- What `self.__on_reach` holds after `__init__`: the user's callable, or
the replacement `lambda o: None`. -/
inductive StoredCallback where
  | user
  | noop
deriving DecidableEq

/-- State of a `Timeout` object (timed.py lines 6-72): `time` is
`self.__time`, `reached` is the tri-state `self.__reached`
(`None`/`False`/`True`), `onReach` is `self.__on_reach`, `timerSet` records
whether the backend timer armed by `_set` is outstanding (cleared by
`_unset`), and `fired` logs every invocation of `self.__on_reach` with its
`forced` flag. -/
structure TimeoutState where
  time : ℚ
  reached : Option Bool
  onReach : StoredCallback
  timerSet : Bool
  fired : List Bool
deriving DecidableEq

/-- `Timeout.__init__` (timed.py lines 16-22):
`self.__time = seconds if isinstance(seconds, integer_types + (float,)) else 15`,
`self.__reached = None`,
`self.__on_reach = on_reach if callable(on_reach) else lambda o: None`.
No statement in the body can raise, so construction is total. -/
def Timeout.init (seconds : PySeconds) (on_reach : PyCallback) :
    TimeoutState :=
  { time :=
      match seconds with
      | .int n => (n : ℚ)
      | .float q => q
      | .nonNumeric => 15
    reached := none
    onReach :=
      match on_reach with
      | .callable => .user
      | .notCallable => .noop
    timerSet := false
    fired := [] }

/-- `Timeout._reach` (timed.py lines 37-44):

    if self.__reached is not False:
        self.__reached = True
        self._unset()
        self.__on_reach(self, forced)

The guard `is not False` admits only the `None`/`True` states — it excludes
the armed (`False`) state, although the docstring says "Terminates a
timeout, if it is not already reached". -/
def Timeout.reach (s : TimeoutState) (forced : Bool) : TimeoutState :=
  if s.reached ≠ some false then
    { s with reached := some true, timerSet := false,
             fired := s.fired ++ [forced] }
  else s

/-- `Timeout.start` (timed.py lines 46-54): error if already running, else
`self.__reached = False` and `self._set(self.__time, lambda: self._reach(False))`. -/
def Timeout.start (s : TimeoutState) : Except TimeoutErrorKind TimeoutState :=
  if s.reached = some false then .error .ALREADY_RUNNING
  else .ok { s with reached := some false, timerSet := true }

/-- `Timeout.force_stop` (timed.py lines 56-63): error if not running, else
`self._reach(True)`. -/
def Timeout.force_stop (s : TimeoutState) :
    Except TimeoutErrorKind TimeoutState :=
  if s.reached ≠ some false then .error .NOT_RUNNING
  else .ok (Timeout.reach s true)

/-- Natural expiry of the backend timer armed by `start`: the delay elapsing
runs the callback `lambda: self._reach(False)` registered via `_set`. -/
def Timeout.expire (s : TimeoutState) : TimeoutState :=
  if s.timerSet then Timeout.reach s false else s

/-- The state after `Timeout(5, cb).start()`. -/
def armedTimeout : TimeoutState :=
  { Timeout.init (.int 5) .callable with
    reached := some false
    timerSet := true }

/-- Claim C5 (code bug): the armed/unarmed error checks hold
(`start` on an armed timeout and `force_stop` on an unarmed one fail), but
`force_stop` on an armed timeout invokes the callback *zero* times, not
once: `_reach`'s guard `if self.__reached is not False:` excludes exactly
the armed state, so `force_stop` returns the state unchanged (no callback
run, timer still armed, `reached` still `False`), and natural expiry is
likewise a no-op. -/
theorem force_stop_never_fires_callback :
    Timeout.start (Timeout.init (.int 5) .callable) = .ok armedTimeout ∧
    Timeout.start armedTimeout = .error .ALREADY_RUNNING ∧
    Timeout.force_stop (Timeout.init (.int 5) .callable)
      = .error .NOT_RUNNING ∧
    Timeout.force_stop armedTimeout = .ok armedTimeout ∧
    armedTimeout.fired = [] ∧
    Timeout.expire armedTimeout = armedTimeout :=
  ⟨rfl, rfl, rfl, rfl, rfl, rfl⟩

/-- Claim C10: `Timeout.__init__` is total (no statement in it can raise);
a `seconds` value that is neither an integer nor a float makes the delay
default to 15, and a non-callable `on_reach` is replaced by the no-op
`lambda o: None`. -/
theorem timeout_init_defaults (seconds : PySeconds) (on_reach : PyCallback) :
    (seconds.isNumeric = false → (Timeout.init seconds on_reach).time = 15) ∧
    (on_reach = .notCallable →
      (Timeout.init seconds on_reach).onReach = .noop) := by
  constructor
  · intro h
    cases seconds with
    | int n => simp [PySeconds.isNumeric] at h
    | float q => simp [PySeconds.isNumeric] at h
    | nonNumeric => rfl
  · intro h
    subst h
    cases seconds <;> rfl

/-- Witness for C10 at concrete bad arguments. -/
theorem timeout_init_defaults_witness :
    (Timeout.init .nonNumeric .notCallable).time = 15 ∧
    (Timeout.init .nonNumeric .notCallable).onReach = .noop :=
  ⟨(timeout_init_defaults .nonNumeric .notCallable).1 rfl,
   (timeout_init_defaults .nonNumeric .notCallable).2 rfl⟩

/-! ### MessageNamespaceSet (messages.py) -/

/-- A Python dict key: namespaces and codes may be strings or integers
(processor config docstring, messaging/__init__.py lines 250-251). -/
inductive PKey where
  | s (v : String)
  | i (n : Int)
deriving DecidableEq

/-- `d.get(k)` / `d[k]` lookup on an association-list model of a Python
dict (first match; keys are unique because insertion happens only when the
key is absent). -/
def dictGet {α : Type} (xs : List (PKey × α)) (k : PKey) : Option α :=
  match xs with
  | [] => none
  | (k2, v) :: rest => if k2 = k then some v else dictGet rest k

/-- `d[k] = v` when `k` is already present: replace in place (models the
in-place mutation of the aliased namespace object). -/
def dictUpdate {α : Type} (xs : List (PKey × α)) (k : PKey) (v : α) :
    List (PKey × α) :=
  match xs with
  | [] => []
  | (k2, v2) :: rest =>
    if k2 = k then (k2, v) :: rest else (k2, v2) :: dictUpdate rest k v

/-- `MessageFactory` (messages.py lines 82-109), without the back-reference
to its owning namespace object (no modelled path reads it). -/
structure MessageFactory where
  code : PKey
  direction : Nat
deriving DecidableEq

/-- `MessageNamespace` (messages.py lines 112-145): a code plus the
`self.__messages` dict. -/
structure MessageNamespace where
  code : PKey
  messages : List (PKey × MessageFactory)
deriving DecidableEq

/-- `MessageNamespaceSet` (messages.py lines 148-205): the
`self.__namespaces` dict. -/
structure MessageNamespaceSet where
  namespaces : List (PKey × MessageNamespace)
deriving DecidableEq

/-- Failures raised during `MessageNamespaceSet.__init__`. -/
inductive MsgErrorKind where
  | FACTORY_ALREADY_EXISTS
  | NAMESPACE_ALREADY_EXISTS
  | keyError
deriving DecidableEq

/-- `MessageNamespace.register` (messages.py lines 125-137). -/
def MessageNamespace.register (ns : MessageNamespace) (code : PKey)
    (direction : Nat) (silent : Bool) :
    Except MsgErrorKind MessageNamespace :=
  match dictGet ns.messages code with
  | some _ => if silent then .ok ns else .error .FACTORY_ALREADY_EXISTS
  | none =>
    .ok { ns with messages := ns.messages ++ [(code, ⟨code, direction⟩)] }

/-- `MessageNamespaceSet.register` (messages.py lines 168-180). -/
def MessageNamespaceSet.register (s : MessageNamespaceSet) (code : PKey)
    (silent : Bool) : Except MsgErrorKind MessageNamespaceSet :=
  match dictGet s.namespaces code with
  | some _ => if silent then .ok s else .error .NAMESPACE_ALREADY_EXISTS
  | none => .ok ⟨s.namespaces ++ [(code, ⟨code, []⟩)]⟩

/-- `x.register(code, direction, silent)` where `x` is the namespace object
aliased from the entry under `nsKey` in the set's dict: the in-place
mutation of `x` is modelled by updating that entry.  In the modelled
`__init__` flow, `nsKey` is always present. -/
def MessageNamespaceSet.registerCommand (s : MessageNamespaceSet)
    (nsKey code : PKey) (direction : Nat) (silent : Bool) :
    Except MsgErrorKind MessageNamespaceSet :=
  match dictGet s.namespaces nsKey with
  | none => .error .keyError
  | some ns =>
    match ns.register code direction silent with
    | .error e => .error e
    | .ok ns2 => .ok ⟨dictUpdate s.namespaces nsKey ns2⟩

/-- `d.lower()`: characterwise lowercasing of the direction string. -/
def pyLower (s : String) : String := String.mk (s.data.map Char.toLower)

/-- `opts[d.lower()]` (messages.py lines 158-166): KeyError for any
direction string other than server/client/both. -/
def optsLookup (d : String) : Except MsgErrorKind Nat :=
  if pyLower d = "server" then .ok MessageFactory.DIRECTION_SERVER
  else if pyLower d = "client" then .ok MessageFactory.DIRECTION_CLIENT
  else if pyLower d = "both" then .ok MessageFactory.DIRECTION_BOTH
  else .error .keyError

/-- One iteration of the `for k, v in items(namespaces)` loop of
`MessageNamespaceSet.__init__` (messages.py lines 163-166):
`x = self.register(k, True)` then `x.register(k2, opts[d.lower()], True)`
for each item of `v`. -/
def MessageNamespaceSet.initStep (s : MessageNamespaceSet)
    (entry : PKey × List (PKey × String)) :
    Except MsgErrorKind MessageNamespaceSet := do
  let s1 ← s.register entry.1 true
  entry.2.foldlM (fun acc kv => do
    let d ← optsLookup kv.2
    MessageNamespaceSet.registerCommand acc entry.1 kv.1 d true) s1

/-- `MessageNamespaceSet.__init__` (messages.py lines 153-166): start empty,
register the `messaging` namespace with its `error` command
(DIRECTION_CLIENT), then process the configuration dict. -/
def MessageNamespaceSet.init
    (namespaces : List (PKey × List (PKey × String))) :
    Except MsgErrorKind MessageNamespaceSet := do
  let s0 : MessageNamespaceSet := ⟨[]⟩
  let s1 ← s0.register (.s "messaging") false
  let s2 ← s1.registerCommand (.s "messaging") (.s "error")
      MessageFactory.DIRECTION_CLIENT false
  namespaces.foldlM MessageNamespaceSet.initStep s2

/-- The invariant of claim C9: the set contains a `messaging` namespace
holding a registered `error` command with client-bound direction. -/
def hasMessagingError (s : MessageNamespaceSet) : Prop :=
  ∃ ns, dictGet s.namespaces (.s "messaging") = some ns ∧
    dictGet ns.messages (.s "error")
      = some ⟨.s "error", MessageFactory.DIRECTION_CLIENT⟩

theorem dictGet_append_left {α : Type} (xs ys : List (PKey × α)) (k : PKey)
    (v : α) (h : dictGet xs k = some v) : dictGet (xs ++ ys) k = some v := by
  induction xs with
  | nil => simp [dictGet] at h
  | cons p rest ih =>
    obtain ⟨k2, v2⟩ := p
    by_cases hk : k2 = k
    · simp [dictGet, hk] at h ⊢
      exact h
    · simp [dictGet, hk] at h ⊢
      exact ih h

theorem dictGet_update_self {α : Type} (xs : List (PKey × α)) (k : PKey)
    (v v0 : α) (h : dictGet xs k = some v0) :
    dictGet (dictUpdate xs k v) k = some v := by
  induction xs with
  | nil => simp [dictGet] at h
  | cons p rest ih =>
    obtain ⟨k2, v2⟩ := p
    by_cases hk : k2 = k
    · simp [dictGet, dictUpdate, hk]
    · simp [dictGet, dictUpdate, hk] at h ⊢
      exact ih h

theorem dictGet_update_ne {α : Type} (xs : List (PKey × α)) (k k2 : PKey)
    (v : α) (h : k ≠ k2) :
    dictGet (dictUpdate xs k v) k2 = dictGet xs k2 := by
  induction xs with
  | nil => simp [dictUpdate]
  | cons p rest ih =>
    obtain ⟨k3, v3⟩ := p
    by_cases hk : k3 = k
    · subst hk
      simp [dictGet, dictUpdate, h]
    · simp [dictGet, dictUpdate, hk]
      by_cases hk2 : k3 = k2
      · simp [hk2]
      · simp [hk2]
        exact ih

theorem register_preserves (s s2 : MessageNamespaceSet) (k : PKey)
    (silent : Bool) (hs : hasMessagingError s)
    (h : s.register k silent = .ok s2) : hasMessagingError s2 := by
  obtain ⟨ns, hns, herr⟩ := hs
  unfold MessageNamespaceSet.register at h
  cases hget : dictGet s.namespaces k with
  | some ns2 =>
    rw [hget] at h
    cases silent with
    | true =>
      simp at h
      exact h ▸ ⟨ns, hns, herr⟩
    | false => simp at h
  | none =>
    rw [hget] at h
    simp at h
    refine ⟨ns, ?_, herr⟩
    rw [← h]
    exact dictGet_append_left _ _ _ _ hns

theorem registerCommand_preserves (s : MessageNamespaceSet)
    (nsKey code : PKey) (direction : Nat) (silent : Bool)
    (s2 : MessageNamespaceSet) (hs : hasMessagingError s)
    (h : s.registerCommand nsKey code direction silent = .ok s2) :
    hasMessagingError s2 := by
  obtain ⟨ns, hns, herr⟩ := hs
  unfold MessageNamespaceSet.registerCommand at h
  split at h
  · exact Except.noConfusion h
  · rename_i nsx hget
    split at h
    · exact Except.noConfusion h
    · rename_i ns2 hreg
      injection h with h
      subst h
      by_cases hkey : nsKey = PKey.s "messaging"
      · subst hkey
        rw [hget] at hns
        injection hns with hns
        subst hns
        refine ⟨ns2, dictGet_update_self _ _ _ _ hget, ?_⟩
        unfold MessageNamespace.register at hreg
        split at hreg
        · rename_i f hcode
          cases silent with
          | true =>
            simp at hreg
            exact hreg ▸ herr
          | false => simp at hreg
        · rename_i hcode
          injection hreg with hreg
          rw [← hreg]
          exact dictGet_append_left _ _ _ _ herr
      · refine ⟨ns, ?_, herr⟩
        rw [dictGet_update_ne _ _ _ _ hkey]
        exact hns

theorem foldlM_except_preserves {σ ε α : Type} (P : σ → Prop)
    (f : σ → α → Except ε σ)
    (hf : ∀ st a st2, P st → f st a = .ok st2 → P st2) :
    ∀ (l : List α) (st st2 : σ), P st →
      l.foldlM f st = .ok st2 → P st2 := by
  intro l
  induction l with
  | nil =>
    intro st st2 hP h
    have h2 : (Except.ok st : Except ε σ) = .ok st2 := h
    injection h2 with h3
    exact h3 ▸ hP
  | cons a rest ih =>
    intro st st2 hP h
    rw [List.foldlM_cons] at h
    cases hstep : f st a with
    | error e =>
      rw [hstep] at h
      have h2 : (Except.error e : Except ε σ) = .ok st2 := h
      exact Except.noConfusion h2
    | ok st1 =>
      rw [hstep] at h
      exact ih st1 st2 (hf st a st1 hP hstep) h

theorem initStep_preserves (s : MessageNamespaceSet)
    (entry : PKey × List (PKey × String)) (s2 : MessageNamespaceSet)
    (hs : hasMessagingError s)
    (h : MessageNamespaceSet.initStep s entry = .ok s2) :
    hasMessagingError s2 := by
  unfold MessageNamespaceSet.initStep at h
  cases hreg : s.register entry.1 true with
  | error e =>
    rw [hreg] at h
    have h2 : (Except.error e
        : Except MsgErrorKind MessageNamespaceSet) = .ok s2 := h
    exact Except.noConfusion h2
  | ok s1 =>
    rw [hreg] at h
    have hP1 := register_preserves s s1 entry.1 true hs hreg
    refine foldlM_except_preserves _ _ ?_ entry.2 s1 s2 hP1 h
    intro st a st2 hP hstep
    cases hopt : optsLookup a.2 with
    | error e =>
      rw [hopt] at hstep
      have h2 : (Except.error e
          : Except MsgErrorKind MessageNamespaceSet) = .ok st2 := hstep
      exact Except.noConfusion h2
    | ok d =>
      rw [hopt] at hstep
      exact registerCommand_preserves st entry.1 a.1 d true st2 hP hstep

/-- Claim C9: whatever the configuration, a successfully constructed
`MessageNamespaceSet` contains a `messaging` namespace holding a registered
`error` command with client-bound direction. -/
theorem namespace_set_contains_messaging_error
    (config : List (PKey × List (PKey × String))) (s : MessageNamespaceSet)
    (h : MessageNamespaceSet.init config = .ok s) :
    ∃ ns, dictGet s.namespaces (.s "messaging") = some ns ∧
      dictGet ns.messages (.s "error")
        = some ⟨.s "error", MessageFactory.DIRECTION_CLIENT⟩ := by
  have hinit : MessageNamespaceSet.init config
      = config.foldlM MessageNamespaceSet.initStep
          ⟨[(.s "messaging", ⟨.s "messaging",
              [(.s "error",
                ⟨.s "error", MessageFactory.DIRECTION_CLIENT⟩)]⟩)]⟩ := rfl
  rw [hinit] at h
  refine foldlM_except_preserves hasMessagingError _ initStep_preserves
    config _ s ?_ h
  exact ⟨_, rfl, rfl⟩

/-- A concrete configuration for the C9 witness. -/
def exampleConfig : List (PKey × List (PKey × String)) :=
  [(.s "chat", [(.s "say", "server")])]

/-- The set `MessageNamespaceSet.init exampleConfig` evaluates to. -/
def exampleSet : MessageNamespaceSet :=
  ⟨[(.s "messaging", ⟨.s "messaging",
      [(.s "error", ⟨.s "error", MessageFactory.DIRECTION_CLIENT⟩)]⟩),
    (.s "chat", ⟨.s "chat",
      [(.s "say", ⟨.s "say", MessageFactory.DIRECTION_SERVER⟩)]⟩)]⟩

/-- Witness for C9 at `exampleConfig`. -/
theorem namespace_set_contains_messaging_error_witness :
    ∃ ns, dictGet exampleSet.namespaces (.s "messaging") = some ns ∧
      dictGet ns.messages (.s "error")
        = some ⟨.s "error", MessageFactory.DIRECTION_CLIENT⟩ :=
  namespace_set_contains_messaging_error exampleConfig exampleSet rfl

end Cantrips
